import Mathlib

/-!
Verification of the decision core of the Asistente repository: the proactive
scoring/decision pipeline (`apps/worker/app/proactive.py`), the Supervisor
autonomy gate (`packages/llm/supervisor.py`), the contact auto-send policy
(`packages/relations/policy.py`) and the conversational state machine
(`packages/agent_core/core.py`).

Modelling conventions:
- times of day (Python `datetime.time`) are minutes since local midnight (`Nat`);
  `time(9, 30)` is `570`;
- instants (Python timezone-aware `datetime`) are integer timestamps (`Int`);
  only their ordering matters for the embedded code;
- database integers that are scores, counters or thresholds are `Nat`
  (the source never stores negative values in them);
- a SQL query result ordered by `created_at DESC` is a Lean list whose head is
  the most recently created row; where a claim needs the ordering it appears as
  an explicit `Pairwise` hypothesis;
- text parsing and text formatting leaves (regex date/number parsers, datetime
  formatting, the NFKD accent folding, the message-safety classifier) are taken
  as oracle function parameters: the embedded decision logic is quantified over
  them, exactly as the decision code is generic in what those helpers return.
-/

namespace Asistente

/-- Python `s or default` for strings: the empty string is falsy. -/
def strOr (s d : String) : String := if s = "" then d else s

/-- Python `str.lower()` on the ASCII fragment the embedded code compares
(tool names, trust labels, evidence keys), written so the kernel can
evaluate it on literals. -/
def str_lower (s : String) : String := ⟨s.data.map Char.toLower⟩

/-! ## Proactive pipeline: configuration, candidates, decisions
    (`apps/worker/app/proactive.py`) -/

/-- The decision-relevant fields of the `SystemConfig` singleton
(`packages/db/models.py` lines 127-150); times of day in minutes. -/
structure SystemConfig where
  quiet_hours_start : Nat
  quiet_hours_end : Nat
  strong_window_start : Nat
  strong_window_end : Nat
  daily_proactive_limit : Nat
  maybe_cooldown_minutes : Nat
  urgent_threshold : Nat
  maybe_threshold : Nat
deriving DecidableEq, Repr

/-- `DEFAULT_CONFIG` of `proactive.py` lines 51-66: quiet hours 00:00-09:30,
strong window 11:00-19:00, limit 5, cooldown 240, thresholds 80/50. -/
def DEFAULT_CONFIG : SystemConfig :=
  { quiet_hours_start := 0
    quiet_hours_end := 570
    strong_window_start := 660
    strong_window_end := 1140
    daily_proactive_limit := 5
    maybe_cooldown_minutes := 240
    urgent_threshold := 80
    maybe_threshold := 50 }

/-- `Candidate` dataclass, `proactive.py` lines 69-78. -/
structure Candidate where
  trigger_type : String
  entity_id : String
  title : String
  score : Nat
  priority : Option Nat
  dedupe_key : String
  message : String
  strategy : Option String := none
deriving DecidableEq, Repr

/-- `Decision` dataclass, `proactive.py` lines 81-85. -/
structure Decision where
  decision : String
  reason : Option String
  score : Nat
deriving DecidableEq, Repr

/-- `_in_quiet_hours`, `proactive.py` lines 838-839: half-open interval check
`quiet_hours_start <= local_time < quiet_hours_end`. -/
def in_quiet_hours (local_time : Nat) (config : SystemConfig) : Prop :=
  config.quiet_hours_start ≤ local_time ∧ local_time < config.quiet_hours_end

instance (t : Nat) (config : SystemConfig) : Decidable (in_quiet_hours t config) :=
  inferInstanceAs (Decidable (_ ∧ _))

/-- `_in_strong_window`, `proactive.py` lines 842-843. -/
def in_strong_window (local_time : Nat) (config : SystemConfig) : Prop :=
  config.strong_window_start ≤ local_time ∧ local_time < config.strong_window_end

instance (t : Nat) (config : SystemConfig) : Decidable (in_strong_window t config) :=
  inferInstanceAs (Decidable (_ ∧ _))

/-- `decide`, `proactive.py` lines 245-277.  `local_time` embeds
`now_local.astimezone(TIMEZONE).time()`.  The source computes a tentative
`sent` decision in both the urgent and the maybe branch and applies the final
`sent_today >= daily_proactive_limit` guard to it; here that guard appears
once in each of the two branches that can produce a tentative `sent`. -/
def Proactive.decide (candidate : Candidate) (local_time : Nat) (config : SystemConfig)
    (autonomy_mode : String) (sent_today : Nat) (in_cooldown : Bool) : Decision :=
  let score := candidate.score
  if in_quiet_hours local_time config ∧ score < config.urgent_threshold then
    ⟨"digested", some "quiet_hours", score⟩
  else if (autonomy_mode = "focus" ∨ autonomy_mode = "urgencies_only") ∧
      score < config.urgent_threshold then
    ⟨"digested", some "autonomy_mode", score⟩
  else if score < config.maybe_threshold then
    ⟨"digested", some "below_threshold", score⟩
  else if config.urgent_threshold ≤ score then
    if config.daily_proactive_limit ≤ sent_today then
      ⟨"digested", some "rate_limit", score⟩
    else ⟨"sent", some "urgent", score⟩
  else if ¬ in_strong_window local_time config then
    ⟨"digested", some "outside_strong_window", score⟩
  else if in_cooldown then
    ⟨"digested", some "cooldown", score⟩
  else if config.daily_proactive_limit ≤ sent_today then
    ⟨"digested", some "rate_limit", score⟩
  else ⟨"sent", some "maybe", score⟩

/-- A task-style candidate with score 90, used for concrete evaluations. -/
def candidate90 : Candidate :=
  { trigger_type := "task_due_today"
    entity_id := "1"
    title := "t"
    score := 90
    priority := none
    dedupe_key := "task:1:due_today"
    message := "m" }

/-- A configuration whose maybe threshold sits above its urgent threshold. -/
def configMaybe95 : SystemConfig := { DEFAULT_CONFIG with maybe_threshold := 95 }

/-- C2 counterexample: with `maybe_threshold = 95 > urgent_threshold = 80`, a
candidate of score 90 evaluated outside quiet hours with `sent_today = 0` is
digested with reason `below_threshold`, not sent with reason `urgent`, even
though its score is at or above the urgent threshold and the daily limit is
not reached: the `below_threshold` check of `decide` runs before the urgent
check, so the claim as stated fails for such configurations. -/
theorem decide_urgent_claim_false :
    Proactive.decide candidate90 600 configMaybe95 "normal" 0 false
      = ⟨"digested", some "below_threshold", 90⟩ ∧
    configMaybe95.urgent_threshold ≤ candidate90.score ∧
    0 < configMaybe95.daily_proactive_limit := by
  refine ⟨?_, by decide, by decide⟩
  decide

/-- C2 (amended): provided `maybe_threshold ≤ urgent_threshold` (which the
default configuration satisfies), `decide` is the pure function embedded
above and (a) inside quiet hours a score below the urgent threshold is always
digested with reason `quiet_hours`, and (b) a score at or above the urgent
threshold is always sent with reason `urgent` unless the daily limit has been
reached, in which case it is digested with reason `rate_limit`. -/
theorem decide_quiet_and_urgent (candidate : Candidate) (local_time : Nat)
    (config : SystemConfig) (autonomy_mode : String) (sent_today : Nat)
    (in_cooldown : Bool)
    (hmu : config.maybe_threshold ≤ config.urgent_threshold) :
    (in_quiet_hours local_time config → candidate.score < config.urgent_threshold →
      Proactive.decide candidate local_time config autonomy_mode sent_today in_cooldown
        = ⟨"digested", some "quiet_hours", candidate.score⟩) ∧
    (config.urgent_threshold ≤ candidate.score →
      Proactive.decide candidate local_time config autonomy_mode sent_today in_cooldown
        = if config.daily_proactive_limit ≤ sent_today then
            ⟨"digested", some "rate_limit", candidate.score⟩
          else ⟨"sent", some "urgent", candidate.score⟩) := by
  constructor
  · intro hq hs
    have hqs : in_quiet_hours local_time config ∧
        candidate.score < config.urgent_threshold := ⟨hq, hs⟩
    unfold Proactive.decide
    rw [if_pos hqs]
  · intro hs
    have h1 : ¬ (in_quiet_hours local_time config ∧ candidate.score < config.urgent_threshold) := by
      rintro ⟨-, h⟩; omega
    have h2 : ¬ ((autonomy_mode = "focus" ∨ autonomy_mode = "urgencies_only") ∧
        candidate.score < config.urgent_threshold) := by
      rintro ⟨-, h⟩; omega
    have h3 : ¬ candidate.score < config.maybe_threshold := by omega
    unfold Proactive.decide
    rw [if_neg h1, if_neg h2, if_neg h3, if_pos hs]

/-- C2 witness: the spec scenario — score 90 at 08:00 (480 minutes, inside the
default quiet hours 00:00-09:30) with urgent threshold 80 and no sends today
yields decision `sent`, reason `urgent` (and 08:00 is indeed in quiet hours). -/
theorem decide_quiet_and_urgent_witness :
    Proactive.decide candidate90 480 DEFAULT_CONFIG "normal" 0 false
      = ⟨"sent", some "urgent", 90⟩ ∧ in_quiet_hours 480 DEFAULT_CONFIG := by
  have h := (decide_quiet_and_urgent candidate90 480 DEFAULT_CONFIG "normal" 0 false
    (by decide)).2 (by decide)
  refine ⟨?_, by decide⟩
  simpa using h

/-- C10: both window membership tests are half-open checks on the configured
times of day, so whenever a window's start is not strictly earlier than its
end the test rejects every time of day: a degenerate quiet-hours window never
produces a `quiet_hours` digest and a degenerate strong window never admits a
`maybe` send. -/
theorem degenerate_windows_never_match (candidate : Candidate) (local_time : Nat)
    (config : SystemConfig) (autonomy_mode : String) (sent_today : Nat)
    (in_cooldown : Bool) :
    (config.quiet_hours_end ≤ config.quiet_hours_start →
      ¬ in_quiet_hours local_time config) ∧
    (config.quiet_hours_end ≤ config.quiet_hours_start →
      (Proactive.decide candidate local_time config autonomy_mode sent_today
        in_cooldown).reason ≠ some "quiet_hours") ∧
    (config.strong_window_end ≤ config.strong_window_start →
      ¬ in_strong_window local_time config) ∧
    (config.strong_window_end ≤ config.strong_window_start →
      (Proactive.decide candidate local_time config autonomy_mode sent_today
        in_cooldown).reason ≠ some "maybe") := by
  refine ⟨?_, ?_, ?_, ?_⟩
  · rintro h ⟨h1, h2⟩; omega
  · intro h
    have hq : ¬ (in_quiet_hours local_time config ∧
        candidate.score < config.urgent_threshold) := by
      rintro ⟨⟨h1, h2⟩, -⟩; omega
    simp only [Proactive.decide]
    rw [if_neg hq]
    split_ifs <;> simp
  · rintro h ⟨h1, h2⟩; omega
  · intro h
    have hs : ¬ in_strong_window local_time config := by
      rintro ⟨h1, h2⟩; omega
    simp only [Proactive.decide]
    rw [if_pos hs]
    split_ifs <;> simp

/-- A configuration whose quiet hours and strong window are both intended to
cross midnight: quiet 22:00 to 09:30, strong 20:00 to 02:00. -/
def crossMidnightConfig : SystemConfig :=
  { DEFAULT_CONFIG with
    quiet_hours_start := 1320
    strong_window_start := 1200
    strong_window_end := 120 }

/-- A candidate in the maybe band (score 60). -/
def candidate60 : Candidate := { candidate90 with score := 60 }

/-- C10 witness: the crossing-midnight windows reject 23:00 (1380 min), and
the decision at 23:00 for a score-60 candidate is not a `maybe` send. -/
theorem degenerate_windows_never_match_witness :
    ¬ in_quiet_hours 1380 crossMidnightConfig ∧
    (Proactive.decide candidate60 1380 crossMidnightConfig
      "normal" 0 false).reason ≠ some "maybe" := by
  refine ⟨?_, ?_⟩
  · exact (degenerate_windows_never_match candidate60 1380 crossMidnightConfig
      "normal" 0 false).1 (by decide)
  · exact (degenerate_windows_never_match candidate60 1380 crossMidnightConfig
      "normal" 0 false).2.2.2 (by decide)

/-! ## Tool registry (`packages/llm/tools_registry.py`) -/

/-- `TOOL_REGISTRY`, lines 18-44: tool name to autonomy scope. -/
def TOOL_REGISTRY : List (String × String) :=
  [("calendar.create_event", "calendar_create"),
   ("calendar.list_events", "calendar_create"),
   ("calendar.is_free", "calendar_create"),
   ("message.reply_draft", "message_reply"),
   ("message.send", "message_reply")]

/-- `get_tool_scope`, lines 51-55. -/
def get_tool_scope (tool_name : String) : Option String :=
  TOOL_REGISTRY.lookup tool_name

/-- The per-tool required input fields of `validate_tool_input`, lines 58-69. -/
def required_fields (tool_name : String) : List String :=
  if tool_name = "calendar.create_event" then ["title", "start", "end"]
  else if tool_name = "calendar.list_events" then ["time_min", "time_max"]
  else if tool_name = "calendar.is_free" then ["start", "end"]
  else if tool_name = "message.reply_draft" then ["incoming_text"]
  else if tool_name = "message.send" then ["chat_id", "text"]
  else []

/-- `_missing_fields`, lines 132-138: a field is missing when absent or empty.
Tool inputs are association lists of string values. -/
def missing_fields (tool_input : List (String × String)) (required : List String) : List String :=
  required.filter fun f =>
    match tool_input.lookup f with
    | none => true
    | some v => v == ""

/-- `validate_tool_input`, lines 58-69. -/
def validate_tool_input (tool_name : String) (tool_input : List (String × String)) : List String :=
  missing_fields tool_input (required_fields tool_name)

/-! ## Supervisor (`packages/llm/supervisor.py`) -/

/-- `PlannedAction` of `packages/llm/schema.py` lines 10-15. -/
structure PlannedAction where
  tool : String
  input : List (String × String)
  risk_level : String
  rationale : String
  requires_confirmation : Bool
deriving DecidableEq, Repr

/-- `PlannerOutput` of `packages/llm/schema.py` lines 25-42. -/
structure PlannerOutput where
  intent : String
  reply : String
  questions : List String
  actions : List PlannedAction
  evidence_needed : List String
deriving DecidableEq, Repr

/-- `SupervisorDecision`, `supervisor.py` lines 11-16. -/
structure SupervisorDecision where
  reply : String
  action : Option PlannedAction
  requires_confirmation : Bool
  reason : String
deriving DecidableEq, Repr

/-- One scope entry of the autonomy snapshot dict consumed by
`_autonomy_enabled` (`supervisor.py` lines 105-117).  `until_at` embeds the
optional ISO string: `none` is an absent/falsy value, `some none` a string
`datetime.fromisoformat` rejects, `some (some t)` one parsing to instant `t`. -/
structure ScopeData where
  mode : String := "off"
  until_at : Option (Option Int) := none
deriving DecidableEq, Repr

/-- `_autonomy_enabled`, `supervisor.py` lines 105-117; `now_utc` embeds
`datetime.now(timezone.utc)`. -/
def snapshot_autonomy_enabled (snapshot : List (String × ScopeData)) (scope : String)
    (now_utc : Int) : Bool :=
  let scope_data := (snapshot.lookup scope).getD {}
  if scope_data.mode ≠ "on" then false
  else
    match scope_data.until_at with
    | none => true
    | some none => false
    | some (some until_dt) => now_utc < until_dt

/-- `_missing_evidence`, `supervisor.py` lines 120-126 (`evidence_keys` is
already lowered by the constructor). -/
def missing_evidence (evidence_needed : List String) (evidence_keys : List String) :
    List String :=
  evidence_needed.filter fun item => !(evidence_keys.contains (str_lower item))

/-- The `Supervisor` of `supervisor.py` lines 19-22; `evidence_keys` holds the
lowered keys computed in `__init__`. -/
structure Supervisor where
  autonomy_snapshot : List (String × ScopeData)
  evidence_keys : List String

/-- `Supervisor.__init__`, lines 20-22: lowers the evidence keys. -/
def Supervisor.ofEvidence (snapshot : List (String × ScopeData)) (keys : List String) :
    Supervisor :=
  ⟨snapshot, keys.map str_lower⟩

/-- `Supervisor.evaluate`, `supervisor.py` lines 24-102 (the version present
under the sources, without a contact policy). -/
def Supervisor.evaluate (s : Supervisor) (output : PlannerOutput) (chat_id : String)
    (now_utc : Int) : SupervisorDecision :=
  match output.questions with
  | q :: _ => ⟨q, none, false, "planner_question"⟩
  | [] =>
    match output.actions with
    | [] => ⟨strOr output.reply "Entendido.", none, false, "no_action"⟩
    | action :: _ =>
      match get_tool_scope action.tool with
      | none => ⟨"No puedo ejecutar esa accion.", none, false, "tool_not_allowed"⟩
      | some tool_scope =>
        if validate_tool_input action.tool action.input ≠ [] then
          ⟨output.questions.headD "Necesito mas detalles.", none, false, "missing_input"⟩
        else if missing_evidence output.evidence_needed s.evidence_keys ≠ [] then
          ⟨output.questions.headD "Necesito confirmar ese dato.", none, false, "missing_evidence"⟩
        else if action.risk_level = "high" then
          ⟨strOr output.reply "Necesito confirmacion.", some action, true, "high_risk"⟩
        else if action.requires_confirmation then
          ⟨strOr output.reply "Necesito confirmacion.", some action, true, "requires_confirmation"⟩
        else if action.risk_level = "medium" ∧
            ¬ snapshot_autonomy_enabled s.autonomy_snapshot tool_scope now_utc then
          ⟨strOr output.reply "Necesito confirmacion.", some action, true, "autonomy_off"⟩
        else ⟨strOr output.reply "Listo.", some action, false, "approved"⟩

/-- The high-risk calendar action of `tests/test_supervisor.py` lines 11-17. -/
def highAction : PlannedAction :=
  { tool := "calendar.create_event"
    input := [("title", "Reunion"), ("start", "2025-01-01T10:00:00"),
              ("end", "2025-01-01T11:00:00")]
    risk_level := "high"
    rationale := "alto"
    requires_confirmation := false }

/-- A snapshot granting `calendar_create` autonomy. -/
def snapshotCalOn : List (String × ScopeData) := [("calendar_create", { mode := "on" })]

/-- A planner output carrying a clarifying question together with a high-risk
first action. -/
def questionOutputHigh : PlannerOutput :=
  { intent := "calendar_create"
    reply := "Necesito confirmar."
    questions := ["Cual es el lugar?"]
    actions := [highAction]
    evidence_needed := [] }

/-- C3 counterexample: a planner output whose first action has
`risk_level = high` but which also carries a clarifying question is answered
with `requires_confirmation = false` (reason `planner_question`): the claim,
quantified over every planner output with a high-risk first action, fails. -/
theorem supervisor_high_risk_claim_false :
    (Supervisor.evaluate ⟨snapshotCalOn, []⟩ questionOutputHigh "chat-1" 0).requires_confirmation
        = false ∧
    questionOutputHigh.actions.map PlannedAction.risk_level = ["high"] :=
  ⟨rfl, rfl⟩

/-- C3 (amended): for every autonomy snapshot and every planner output that
passes the preceding checks (no clarifying question, first action present,
tool in the registry, no missing required input, no missing evidence) and
whose first action has `risk_level = high`, `Supervisor.evaluate` returns
`requires_confirmation = true` with reason `high_risk`, regardless of the
snapshot contents. -/
theorem supervisor_high_risk_confirmation
    (snapshot : List (String × ScopeData)) (keys : List String) (output : PlannerOutput)
    (chat_id : String) (now_utc : Int) (action : PlannedAction) (rest : List PlannedAction)
    (hq : output.questions = [])
    (ha : output.actions = action :: rest)
    (hr : action.risk_level = "high")
    (hscope : (get_tool_scope action.tool).isSome = true)
    (hinput : validate_tool_input action.tool action.input = [])
    (hev : missing_evidence output.evidence_needed keys = []) :
    Supervisor.evaluate ⟨snapshot, keys⟩ output chat_id now_utc
      = ⟨strOr output.reply "Necesito confirmacion.", some action, true, "high_risk"⟩ := by
  obtain ⟨scope, hsc⟩ := Option.isSome_iff_exists.mp hscope
  simp only [Supervisor.evaluate, hq, ha, hsc, hinput, hev, hr]
  simp

/-- An output identical to `questionOutputHigh` but with no question. -/
def outputHigh : PlannerOutput := { questionOutputHigh with questions := [] }

/-- C3 witness: the high-risk calendar plan with no question, evaluated under
a snapshot that grants calendar autonomy, still requires confirmation with
reason `high_risk`. -/
theorem supervisor_high_risk_confirmation_witness :
    Supervisor.evaluate ⟨snapshotCalOn, []⟩ outputHigh "chat-1" 0
      = ⟨"Necesito confirmar.", some highAction, true, "high_risk"⟩ := by
  have h := supervisor_high_risk_confirmation snapshotCalOn [] outputHigh "chat-1" 0
    highAction [] rfl rfl rfl rfl rfl rfl
  simpa [strOr, outputHigh, questionOutputHigh] using h

/-! ## Contact auto-send policy (`packages/relations/policy.py`) -/

/-- The fields of a `Contact` row consulted by `allow_auto_send` (columns
added by migration `0010_relations_block10.py`). -/
structure Contact where
  chat_id : String
  trust_label : String
  trust_level : Nat
  allow_auto_reply : Bool
deriving DecidableEq, Repr

/-- The fields of `MessageSafety` (`packages/relations/safety.py` lines 8-15)
consulted by `allow_auto_send`. -/
structure MessageSafety where
  category : String
  operational : Bool
deriving DecidableEq, Repr

/-- The trust-label normalization of `allow_auto_send`
(`policy.py` lines 19-25): lowering plus Spanish synonyms. -/
def normalize_trust_label (raw : String) : String :=
  let label := str_lower (strOr raw "unknown")
  if label = "proveedor" then "provider"
  else if label = "cliente" then "client"
  else if label = "amigo" then "friend"
  else label

/-- `ContactPolicy.allow_auto_send`, `policy.py` lines 15-40.  `contacts`
embeds the contact table (unique `chat_id`); `classify` embeds
`MessageSafetyClassifier.classify` applied to the current privacy rules — a
pure text-classification leaf taken as an oracle. -/
def allow_auto_send (contacts : List Contact) (classify : String → MessageSafety)
    (chat_id message_text : String) : Bool × String :=
  match contacts.find? (fun c => c.chat_id == chat_id) with
  | none => (false, "unknown_contact")
  | some contact =>
    let label := normalize_trust_label contact.trust_label
    if ¬ (label = "provider" ∨ label = "client") then (false, "untrusted_label")
    else if contact.trust_level < 60 then (false, "low_trust")
    else if ¬ contact.allow_auto_reply then (false, "auto_reply_off")
    else
      let safety := classify message_text
      if safety.category = "sensitive" then (false, "sensitive")
      else if ¬ safety.operational then (false, "not_operational")
      else (true, "ok")

/-- Python `dict.get(key, "")` over a tool-input association list. -/
def input_get (tool_input : List (String × String)) (key : String) : String :=
  (tool_input.lookup key).getD ""

/-- Modelled from the spec: the repository's later `Supervisor` — the one
constructed with a `contact_policy` argument by `core.py` lines 1293-1297 and
by `tests/test_supervisor.py` — is not present under the sources (the
`supervisor.py` present takes no such argument).  Per spec §4.2, its decision
order inserts one step between honoring the plan's `requires_confirmation`
flag and the medium-risk autonomy check: when `risk_level = medium` and the
tool is `message.send`, the contact-policy auto-send check must pass, and
failing it yields a confirmation-required decision.  All other steps are
those of `Supervisor.evaluate` above. -/
def SupervisorFull.evaluate (snapshot : List (String × ScopeData)) (evidence_keys : List String)
    (contact_policy : String → String → Bool × String)
    (output : PlannerOutput) (chat_id : String) (now_utc : Int) : SupervisorDecision :=
  match output.questions with
  | q :: _ => ⟨q, none, false, "planner_question"⟩
  | [] =>
    match output.actions with
    | [] => ⟨strOr output.reply "Entendido.", none, false, "no_action"⟩
    | action :: _ =>
      match get_tool_scope action.tool with
      | none => ⟨"No puedo ejecutar esa accion.", none, false, "tool_not_allowed"⟩
      | some tool_scope =>
        if validate_tool_input action.tool action.input ≠ [] then
          ⟨output.questions.headD "Necesito mas detalles.", none, false, "missing_input"⟩
        else if missing_evidence output.evidence_needed evidence_keys ≠ [] then
          ⟨output.questions.headD "Necesito confirmar ese dato.", none, false, "missing_evidence"⟩
        else if action.risk_level = "high" then
          ⟨strOr output.reply "Necesito confirmacion.", some action, true, "high_risk"⟩
        else if action.requires_confirmation then
          ⟨strOr output.reply "Necesito confirmacion.", some action, true, "requires_confirmation"⟩
        else if action.risk_level = "medium" ∧ action.tool = "message.send" ∧
            ¬ (contact_policy (input_get action.input "chat_id")
                (input_get action.input "text")).1 then
          ⟨strOr output.reply "Necesito confirmacion.", some action, true, "contact_policy"⟩
        else if action.risk_level = "medium" ∧
            ¬ snapshot_autonomy_enabled snapshot tool_scope now_utc then
          ⟨strOr output.reply "Necesito confirmacion.", some action, true, "autonomy_off"⟩
        else ⟨strOr output.reply "Listo.", some action, false, "approved"⟩

/-- C1: for every planner output whose first action uses `message.send` at
`risk_level = medium` and passes the preceding checks (no question, tool
registry, required inputs, evidence), a failing contact-policy auto-send
check makes the returned decision require confirmation; and the auto-send
check fails whenever any of its claimed parts fails for the addressed
contact: trust label not normalizing to client/provider, trust level below
60, `allow_auto_reply` off, or privacy-sensitive message content. -/
theorem supervisor_medium_message_send_contact_policy
    (snapshot : List (String × ScopeData)) (keys : List String)
    (contact_policy : String → String → Bool × String)
    (output : PlannerOutput) (chat_id : String) (now_utc : Int)
    (action : PlannedAction) (rest : List PlannedAction) :
    (output.questions = [] → output.actions = action :: rest →
      action.tool = "message.send" → action.risk_level = "medium" →
      validate_tool_input action.tool action.input = [] →
      missing_evidence output.evidence_needed keys = [] →
      (contact_policy (input_get action.input "chat_id")
        (input_get action.input "text")).1 = false →
      (SupervisorFull.evaluate snapshot keys contact_policy output chat_id
        now_utc).requires_confirmation = true) ∧
    (∀ (contacts : List Contact) (classify : String → MessageSafety)
        (cid text : String) (contact : Contact),
      contacts.find? (fun c => c.chat_id == cid) = some contact →
      (¬ (normalize_trust_label contact.trust_label = "provider" ∨
          normalize_trust_label contact.trust_label = "client") ∨
        contact.trust_level < 60 ∨
        contact.allow_auto_reply = false ∨
        (classify text).category = "sensitive") →
      (allow_auto_send contacts classify cid text).1 = false) := by
  constructor
  · intro hq ha htool hr hinput hev hpol
    rw [htool] at hinput
    have hsc : get_tool_scope "message.send" = some "message_reply" := rfl
    by_cases hconf : action.requires_confirmation <;>
      simp [SupervisorFull.evaluate, hq, ha, htool, hsc, hinput, hev, hr, hpol, hconf]
  · intro contacts classify cid text contact hfind hparts
    simp only [allow_auto_send, hfind]
    split_ifs with h1 h2 h3 h4 h5 <;> try rfl
    rcases hparts with h | h | h | h
    · exact h h1
    · exact h2 h
    · rw [h] at h3; exact absurd h3 Bool.false_ne_true
    · exact h4 h

/-- A contact whose trust level is below 60. -/
def contactLowTrust : Contact :=
  { chat_id := "123@c.us", trust_label := "cliente", trust_level := 40,
    allow_auto_reply := true }

/-- A classifier marking everything neutral and operational. -/
def classifyNeutral : String → MessageSafety := fun _ => ⟨"neutral", true⟩

/-- The medium-risk `message.send` action of `tests/test_supervisor.py`
lines 83-89, at risk level medium. -/
def sendActionMedium : PlannedAction :=
  { tool := "message.send"
    input := [("chat_id", "123@c.us"), ("text", "hola")]
    risk_level := "medium"
    rationale := "respuesta"
    requires_confirmation := false }

/-- A planner output whose only action is the medium-risk `message.send`. -/
def sendOutputMedium : PlannerOutput :=
  { intent := "message_send"
    reply := "Ok"
    questions := []
    actions := [sendActionMedium]
    evidence_needed := [] }

/-- C1 witness: with the low-trust contact the auto-send check fails and the
modelled Supervisor requires confirmation for the medium-risk `message.send`
plan even though `message_reply` autonomy is on. -/
theorem supervisor_medium_message_send_contact_policy_witness :
    (SupervisorFull.evaluate [("message_reply", { mode := "on" })] []
      (allow_auto_send [contactLowTrust] classifyNeutral) sendOutputMedium "chat-1"
      0).requires_confirmation = true ∧
    (allow_auto_send [contactLowTrust] classifyNeutral "123@c.us" "hola").1 = false := by
  constructor
  · exact (supervisor_medium_message_send_contact_policy [("message_reply", { mode := "on" })]
      [] (allow_auto_send [contactLowTrust] classifyNeutral) sendOutputMedium "chat-1" 0
      sendActionMedium []).1 rfl rfl rfl rfl rfl rfl (by decide)
  · exact (supervisor_medium_message_send_contact_policy [("message_reply", { mode := "on" })]
      [] (allow_auto_send [contactLowTrust] classifyNeutral) sendOutputMedium "chat-1" 0
      sendActionMedium []).2 [contactLowTrust] classifyNeutral "123@c.us" "hola"
      contactLowTrust rfl (Or.inr (Or.inl (by decide)))

/-! ## Autonomy rules and their lookups
    (`proactive.py` lines 713-725 and 846-858, `policy.py` lines 42-53) -/

/-- An `AutonomyRule` row (`packages/db/models.py` lines 55-64). -/
structure AutonomyRule where
  scope : String
  mode : String
  until_at : Option Int
  created_at : Int
deriving DecidableEq, Repr

/-- The skip condition of the rule loops: `rule.until_at and rule.until_at <
now_utc` (a datetime is always truthy). -/
def is_expired (rule : AutonomyRule) (now_utc : Int) : Bool :=
  match rule.until_at with
  | some until_at => decide (until_at < now_utc)
  | none => false

/-- The shared loop of `_get_autonomy_mode` (`proactive.py` lines 721-724)
and `_habits_autonomy_off` (lines 854-857): walk the `created_at`-descending
rows, skip expired ones, return the first remaining row.  The input list is
the query result, newest first. -/
def effective_rule : List AutonomyRule → Int → Option AutonomyRule
  | [], _ => none
  | rule :: rules, now_utc =>
    if is_expired rule now_utc then effective_rule rules now_utc else some rule

/-- `_get_autonomy_mode`, `proactive.py` lines 713-725: mode of the first
non-expired global rule, defaulting to `normal`. -/
def get_autonomy_mode (rules : List AutonomyRule) (now_utc : Int) : String × Option Int :=
  match effective_rule rules now_utc with
  | some rule => (rule.mode, rule.until_at)
  | none => ("normal", none)

/-- `_habits_autonomy_off`, `proactive.py` lines 846-858: true when the first
non-expired habits-scope rule has a mode other than `on`; false with no rule. -/
def habits_autonomy_off (habit_rules : List AutonomyRule) (now_utc : Int) : Bool :=
  match effective_rule habit_rules now_utc with
  | some rule => rule.mode != "on"
  | none => false

/-- `ContactPolicy.autonomy_enabled`, `policy.py` lines 42-53: consults only
`.first()` of the `created_at`-descending rows, with no skipping of expired
rows. -/
def policy_autonomy_enabled (rules : List AutonomyRule) (now_utc : Int) : Bool :=
  match rules with
  | [] => false
  | rule :: _ =>
    if rule.mode != "on" then false
    else
      match rule.until_at with
      | some until_at => decide (now_utc < until_at)
      | none => true

/-- The fold step selecting the row with the larger `created_at`. -/
def spec_pick (acc : Option AutonomyRule) (rule : AutonomyRule) : Option AutonomyRule :=
  match acc with
  | none => some rule
  | some best => if best.created_at < rule.created_at then some rule else some best

/-- Definition following the spec's words (§3, AutonomyRule): the effective
rule is the most recently created non-expired row — computed here as the
`created_at`-argmax of the non-expired rows, independent of list order. -/
def spec_effective_rule (rules : List AutonomyRule) (now_utc : Int) : Option AutonomyRule :=
  (rules.filter fun rule => !(is_expired rule now_utc)).foldl spec_pick none

theorem foldl_spec_pick_max (l : List AutonomyRule) (best : AutonomyRule)
    (hmax : ∀ r ∈ l, r.created_at < best.created_at) :
    l.foldl spec_pick (some best) = some best := by
  induction l with
  | nil => rfl
  | cons x xs ih =>
    have hx : x.created_at < best.created_at := hmax x (by simp)
    have hstep : spec_pick (some best) x = some best := by
      simp only [spec_pick, if_neg (not_lt.mpr hx.le)]
    rw [List.foldl_cons, hstep]
    exact ih fun r hr => hmax r (by simp [hr])

/-- On a `created_at`-strictly-descending list (the shape every
`order_by(created_at.desc())` result has when creation times are distinct)
the first-non-expired loop computes exactly the spec's most recently created
non-expired row. -/
theorem effective_rule_eq_spec (rules : List AutonomyRule) (now_utc : Int)
    (hs : rules.Pairwise (fun a b => b.created_at < a.created_at)) :
    effective_rule rules now_utc = spec_effective_rule rules now_utc := by
  induction rules with
  | nil => rfl
  | cons rule rules ih =>
    obtain ⟨hhead, htail⟩ := List.pairwise_cons.mp hs
    by_cases hexp : is_expired rule now_utc
    · rw [effective_rule, if_pos hexp, ih htail]
      simp [spec_effective_rule, List.filter_cons, hexp]
    · rw [effective_rule, if_neg hexp]
      have hfilter : (rule :: rules).filter (fun r => !(is_expired r now_utc))
          = rule :: rules.filter (fun r => !(is_expired r now_utc)) := by
        simp [List.filter_cons, hexp]
      rw [spec_effective_rule, hfilter, List.foldl_cons]
      have hpick : spec_pick none rule = some rule := rfl
      rw [hpick]
      exact (foldl_spec_pick_max _ rule fun r hr =>
        hhead r (List.mem_of_mem_filter hr)).symm

theorem effective_rule_mem (rules : List AutonomyRule) (now_utc : Int)
    (rule : AutonomyRule) (h : effective_rule rules now_utc = some rule) :
    rule ∈ rules := by
  induction rules with
  | nil => simp [effective_rule] at h
  | cons r rs ih =>
    rw [effective_rule] at h
    split_ifs at h with hexp
    · exact List.mem_cons_of_mem r (ih h)
    · simp at h
      simp [h]

/-- The habits-scope autonomy rule created by `core.py` line 1004 (scope
`habits`, mode `off`, expiring at end of day), still in force at time 100. -/
def habitsOffRule : AutonomyRule :=
  { scope := "habits", mode := "off", until_at := some 1439, created_at := 1 }

/-- A newer rule that has already expired at time 100, on top of an older
open-ended `on` rule.  The spec's effective rule is the older one. -/
def ruleNewerExpired : AutonomyRule :=
  { scope := "message_reply", mode := "on", until_at := some 10, created_at := 2 }

/-- The older, never-expiring `on` rule. -/
def ruleOlderOpen : AutonomyRule :=
  { scope := "message_reply", mode := "on", until_at := none, created_at := 1 }

/-- C4 counterexample: for the `created_at`-descending history
`[ruleNewerExpired, ruleOlderOpen]` at time 100, the most recently created
non-expired row (spec semantics) is the older open-ended `on` rule, yet
`ContactPolicy.autonomy_enabled` returns `false`: it consults only the most
recently created row and treats its expiry as disabling, without skipping to
the older non-expired row. -/
theorem autonomy_enabled_claim_false :
    List.Pairwise (fun a b => b.created_at < a.created_at)
      [ruleNewerExpired, ruleOlderOpen] ∧
    (spec_effective_rule [ruleNewerExpired, ruleOlderOpen] 100).map AutonomyRule.mode
      = some "on" ∧
    (spec_effective_rule [ruleNewerExpired, ruleOlderOpen] 100).bind AutonomyRule.until_at
      = none ∧
    policy_autonomy_enabled [ruleNewerExpired, ruleOlderOpen] 100 = false := by
  refine ⟨?_, by decide, by decide, by decide⟩
  decide

/-- C4 (amended): on a `created_at`-descending history, the proactive global
mode lookup and the habits-off check do follow the spec's
most-recently-created-non-expired semantics (with defaults `normal` and
not-off); the contact-policy per-scope check instead depends only on the
single most recently created row — it never skips an expired newest row —
and an empty history yields `false` (per-action default `off`). -/
theorem autonomy_effective_rule_lookups (rules : List AutonomyRule) (now_utc : Int)
    (hs : rules.Pairwise (fun a b => b.created_at < a.created_at)) :
    (get_autonomy_mode rules now_utc).1
        = ((spec_effective_rule rules now_utc).map AutonomyRule.mode).getD "normal" ∧
    habits_autonomy_off rules now_utc
        = ((spec_effective_rule rules now_utc).map (fun r => r.mode != "on")).getD false ∧
    (∀ rules₂ : List AutonomyRule, rules.head? = rules₂.head? →
      policy_autonomy_enabled rules now_utc = policy_autonomy_enabled rules₂ now_utc) ∧
    policy_autonomy_enabled [] now_utc = false := by
  have hkey := effective_rule_eq_spec rules now_utc hs
  refine ⟨?_, ?_, ?_, rfl⟩
  · rw [get_autonomy_mode, hkey]
    cases spec_effective_rule rules now_utc <;> rfl
  · rw [habits_autonomy_off, hkey]
    cases spec_effective_rule rules now_utc <;> rfl
  · intro rules₂ hh
    cases rules with
    | nil =>
      cases rules₂ with
      | nil => rfl
      | cons r₂ rs₂ => simp at hh
    | cons r rs =>
      cases rules₂ with
      | nil => simp at hh
      | cons r₂ rs₂ =>
        simp only [List.head?] at hh
        cases hh
        rfl

/-- C4 witness: on the two-rule history the global-mode lookup returns the
older rule's mode `on`, and the empty history is disabled for the policy. -/
theorem autonomy_effective_rule_lookups_witness :
    (get_autonomy_mode [ruleNewerExpired, ruleOlderOpen] 100).1 = "on" ∧
    policy_autonomy_enabled [] 100 = false := by
  have h := autonomy_effective_rule_lookups [ruleNewerExpired, ruleOlderOpen] 100 (by decide)
  exact ⟨h.1.trans (by decide), h.2.2.2⟩

/-! ## Habit suppression during the tick (`proactive.py` lines 131-133) -/

/-- Python `str.startswith`, written so the kernel can evaluate it. -/
def starts_with (s pre : String) : Bool := s.data.take pre.data.length == pre.data

/-- The tick-loop adjustment of `run_proactive_tick` lines 131-133: a habit
candidate's decision is replaced by `suppressed`/`habits_off` when the habits
autonomy check says off. -/
def adjusted_decision (habit_rules : List AutonomyRule) (now_utc : Int)
    (candidate : Candidate) (d : Decision) : Decision :=
  if starts_with candidate.trigger_type "habit_" ∧ habits_autonomy_off habit_rules now_utc then
    ⟨"suppressed", some "habits_off", d.score⟩
  else d

/-- C9: with the habits-scope history holding only modes `on`/`off` (the
application only ever creates habits rules with mode `off`, `core.py` line
1004), a candidate's decision is forced to `suppressed`/`habits_off` exactly
when it is a habit-trigger candidate and the effective (first non-expired)
habits rule is `off`; non-habit candidates and an empty habits history are
never affected, and `decide` itself never produces a suppressed decision. -/
theorem habit_suppression_iff_habits_off (habit_rules : List AutonomyRule)
    (now_utc : Int) (candidate : Candidate) (d : Decision)
    (hmodes : ∀ r ∈ habit_rules, r.mode = "on" ∨ r.mode = "off")
    (hd : d.decision ≠ "suppressed") :
    (adjusted_decision habit_rules now_utc candidate d
        = ⟨"suppressed", some "habits_off", d.score⟩ ↔
      starts_with candidate.trigger_type "habit_" = true ∧
        ∃ rule, effective_rule habit_rules now_utc = some rule ∧ rule.mode = "off") ∧
    (starts_with candidate.trigger_type "habit_" = false →
      adjusted_decision habit_rules now_utc candidate d = d) ∧
    (habit_rules = [] → adjusted_decision habit_rules now_utc candidate d = d) ∧
    (∀ local_time config autonomy_mode sent_today in_cooldown,
      (Proactive.decide candidate local_time config autonomy_mode sent_today
        in_cooldown).decision ≠ "suppressed") := by
  refine ⟨⟨?_, ?_⟩, ?_, ?_, ?_⟩
  · intro hadj
    by_cases hcond : starts_with candidate.trigger_type "habit_" ∧
        habits_autonomy_off habit_rules now_utc
    · refine ⟨hcond.1, ?_⟩
      have hoff := hcond.2
      rw [habits_autonomy_off] at hoff
      cases heff : effective_rule habit_rules now_utc with
      | none => rw [heff] at hoff; simp at hoff
      | some rule =>
        rw [heff] at hoff
        replace hoff : (rule.mode != "on") = true := hoff
        refine ⟨rule, rfl, ?_⟩
        have hne : rule.mode ≠ "on" := by
          intro hcon
          rw [hcon] at hoff
          simp at hoff
        rcases hmodes rule (effective_rule_mem _ _ _ heff) with h | h
        · exact absurd h hne
        · exact h
    · rw [adjusted_decision, if_neg hcond] at hadj
      exact absurd (congrArg Decision.decision hadj) hd
  · rintro ⟨hstart, rule, heff, hoff⟩
    have hcond : starts_with candidate.trigger_type "habit_" ∧
        habits_autonomy_off habit_rules now_utc := by
      refine ⟨hstart, ?_⟩
      rw [habits_autonomy_off, heff]
      show (rule.mode != "on") = true
      rw [hoff]
      rfl
    rw [adjusted_decision, if_pos hcond]
  · intro hstart
    rw [adjusted_decision, if_neg]
    rintro ⟨h1, -⟩
    rw [hstart] at h1
    exact Bool.false_ne_true h1
  · intro hnil
    subst hnil
    rw [adjusted_decision, if_neg]
    rintro ⟨-, h2⟩
    simp [habits_autonomy_off, effective_rule] at h2
  · intro local_time config autonomy_mode sent_today in_cooldown
    simp only [Proactive.decide]
    split_ifs <;> simp

/-- A habit-window candidate. -/
def habitCandidate : Candidate :=
  { candidate90 with trigger_type := "habit_window", dedupe_key := "habit:1:habit_window:d" }

/-- C9 witness: with an in-force `off` habits rule, a habit-window candidate's
`sent` decision is forced to `suppressed`/`habits_off`; scores carried over. -/
theorem habit_suppression_iff_habits_off_witness :
    adjusted_decision [habitsOffRule] 100 habitCandidate ⟨"sent", some "urgent", 90⟩
      = ⟨"suppressed", some "habits_off", 90⟩ := by
  exact (habit_suppression_iff_habits_off [habitsOffRule] 100 habitCandidate
      ⟨"sent", some "urgent", 90⟩ (by decide) (by decide)).1.mpr
    ⟨by decide, habitsOffRule, by decide, rfl⟩

/-! ## Proactive event log and per-candidate tick step
    (`proactive.py` lines 88-185, 762-806) -/

/-- A `ProactiveEvent` row (`packages/db/models.py` lines 98-112; `dedupe_key`
carries a unique constraint). -/
structure ProactiveEventRow where
  trigger_type : String
  dedupe_key : String
  entity_id : String
  priority : Option Nat
  score : Nat
  decision : String
  reason : Option String
  sent_at : Option Int
  created_at : Int
deriving DecidableEq, Repr

/-- The proactive_events table as an insertion-ordered list of rows. -/
abbrev EventStore := List ProactiveEventRow

/-- `_has_dedupe`, `proactive.py` lines 778-779. -/
def has_dedupe (store : EventStore) (dedupe_key : String) : Bool :=
  store.any fun e => e.dedupe_key == dedupe_key

/-- The row built by `_record_event`, `proactive.py` lines 790-800. -/
def mk_event_row (candidate : Candidate) (decision : String) (reason : Option String)
    (sent_at : Option Int) (created_at : Int) : ProactiveEventRow :=
  ⟨candidate.trigger_type, candidate.dedupe_key, candidate.entity_id, candidate.priority,
   candidate.score, decision, reason, sent_at, created_at⟩

/-- `_record_event`, `proactive.py` lines 782-806: insert and commit; the
unique constraint on `dedupe_key` raises `IntegrityError` exactly when a row
with the same key already exists, and the rollback leaves the table
unchanged. -/
def record_event (store : EventStore) (candidate : Candidate) (decision : String)
    (reason : Option String) (sent_at : Option Int) (created_at : Int) : EventStore :=
  if has_dedupe store candidate.dedupe_key then store
  else store ++ [mk_event_row candidate decision reason sent_at created_at]

/-- `_sent_recently`, `proactive.py` lines 762-775: a `sent` event of the
same trigger type with `sent_at` within the cooldown window (a SQL comparison
against a NULL `sent_at` never matches). -/
def sent_recently (store : EventStore) (trigger_type : String) (now_local : Int)
    (cooldown_minutes : Nat) : Bool :=
  store.any fun e =>
    e.trigger_type == trigger_type && e.decision == "sent" &&
      (match e.sent_at with
       | some sent_at => decide (now_local - (cooldown_minutes : Int) ≤ sent_at)
       | none => false)

/-- The result of one iteration of the candidate loop: the updated event
table, the updated `sent_today` counter, and whether a message went out. -/
structure TickStep where
  store : EventStore
  sent_today : Nat
  sent : Bool
deriving DecidableEq, Repr

/-- One iteration of the candidate loop of `run_proactive_tick`
(`proactive.py` lines 112-183): skip on dedupe, decide (with the habit
adjustment of lines 131-133), then send and record, or record only.
`send_ok` embeds whether `WahaClient.send_text` succeeds; the habit-nudge
bookkeeping writes to a separate table and is not modelled. -/
def process_candidate (config : SystemConfig) (autonomy_mode : String)
    (habit_rules : List AutonomyRule) (chat_id : Option String) (local_time : Nat)
    (now_utc : Int) (send_ok : Bool) (store : EventStore) (sent_today : Nat)
    (candidate : Candidate) : TickStep :=
  if has_dedupe store candidate.dedupe_key then ⟨store, sent_today, false⟩
  else
    let in_cooldown := sent_recently store candidate.trigger_type now_utc
      config.maybe_cooldown_minutes
    let d0 := Proactive.decide candidate local_time config autonomy_mode sent_today in_cooldown
    let d := adjusted_decision habit_rules now_utc candidate d0
    if d.decision = "sent" then
      match chat_id with
      | none =>
        ⟨record_event store candidate "suppressed" (some "no_contact") none now_utc,
         sent_today, false⟩
      | some _ =>
        if send_ok then
          ⟨record_event store candidate "sent" d.reason (some now_utc) now_utc,
           sent_today + 1, true⟩
        else
          ⟨record_event store candidate "suppressed" (some "send_failed") none now_utc,
           sent_today, false⟩
    else
      ⟨record_event store candidate d.decision d.reason none now_utc, sent_today, false⟩

/-- No two rows share a dedupe key. -/
def unique_keys (store : EventStore) : Prop :=
  store.Pairwise fun e₁ e₂ => e₁.dedupe_key ≠ e₂.dedupe_key

/-- Number of rows holding a given dedupe key. -/
def count_key (store : EventStore) (dedupe_key : String) : Nat :=
  (store.filter fun e => e.dedupe_key == dedupe_key).length

theorem has_dedupe_false_forall (store : EventStore) (key : String)
    (h : has_dedupe store key = false) :
    ∀ e ∈ store, e.dedupe_key ≠ key := by
  intro e he
  have := List.any_eq_false.mp h e he
  simpa using this

theorem has_dedupe_false_count (store : EventStore) (key : String)
    (h : has_dedupe store key = false) : count_key store key = 0 := by
  have hall := has_dedupe_false_forall store key h
  rw [count_key]
  rw [List.length_eq_zero]
  rw [List.filter_eq_nil]
  intro e he
  simpa using hall e he

theorem process_candidate_append (config : SystemConfig) (autonomy_mode : String)
    (habit_rules : List AutonomyRule) (chat_id : Option String) (local_time : Nat)
    (now_utc : Int) (send_ok : Bool) (store : EventStore) (sent_today : Nat)
    (candidate : Candidate)
    (h : has_dedupe store candidate.dedupe_key = false) :
    ∃ e : ProactiveEventRow, e.dedupe_key = candidate.dedupe_key ∧
      (process_candidate config autonomy_mode habit_rules chat_id local_time now_utc
        send_ok store sent_today candidate).store = store ++ [e] := by
  have hrec : ∀ dec r s t, record_event store candidate dec r s t
      = store ++ [mk_event_row candidate dec r s t] := by
    intro dec r s t
    rw [record_event, if_neg]
    simp [h]
  cases chat_id with
  | none =>
    simp only [process_candidate, h, Bool.false_eq_true, if_false]
    split_ifs with hsent
    · exact ⟨mk_event_row candidate "suppressed" (some "no_contact") none now_utc, rfl,
        hrec _ _ _ _⟩
    · exact ⟨mk_event_row candidate _ _ none now_utc, rfl, hrec _ _ _ _⟩
  | some cid =>
    simp only [process_candidate, h, Bool.false_eq_true, if_false]
    split_ifs with hsent hok
    · exact ⟨mk_event_row candidate "sent" _ (some now_utc) now_utc, rfl, hrec _ _ _ _⟩
    · exact ⟨mk_event_row candidate "suppressed" (some "send_failed") none now_utc, rfl,
        hrec _ _ _ _⟩
    · exact ⟨mk_event_row candidate _ _ none now_utc, rfl, hrec _ _ _ _⟩

/-- C6: the per-candidate tick step is idempotent per dedupe key: a candidate
whose key already has a recorded event is skipped entirely (table, counter
and sent flag unchanged); the step preserves key uniqueness of the table; and
for a fresh key the step leaves exactly one row with that key, after which
re-processing the same candidate is a no-op. -/
theorem dedupe_idempotent (config : SystemConfig) (autonomy_mode : String)
    (habit_rules : List AutonomyRule) (chat_id : Option String) (local_time : Nat)
    (now_utc : Int) (send_ok : Bool) (store : EventStore) (sent_today : Nat)
    (candidate : Candidate) :
    (has_dedupe store candidate.dedupe_key = true →
      process_candidate config autonomy_mode habit_rules chat_id local_time now_utc
        send_ok store sent_today candidate = ⟨store, sent_today, false⟩) ∧
    (unique_keys store →
      unique_keys (process_candidate config autonomy_mode habit_rules chat_id local_time
        now_utc send_ok store sent_today candidate).store) ∧
    (has_dedupe store candidate.dedupe_key = false →
      count_key (process_candidate config autonomy_mode habit_rules chat_id local_time
        now_utc send_ok store sent_today candidate).store candidate.dedupe_key = 1 ∧
      ∀ (send_ok₂ : Bool) (sent_today₂ : Nat),
        process_candidate config autonomy_mode habit_rules chat_id local_time now_utc
          send_ok₂
          (process_candidate config autonomy_mode habit_rules chat_id local_time now_utc
            send_ok store sent_today candidate).store
          sent_today₂ candidate
        = ⟨(process_candidate config autonomy_mode habit_rules chat_id local_time now_utc
            send_ok store sent_today candidate).store, sent_today₂, false⟩) := by
  refine ⟨?_, ?_, ?_⟩
  · intro h
    simp [process_candidate, h]
  · intro huniq
    by_cases h : has_dedupe store candidate.dedupe_key
    · simp [process_candidate, h]
      exact huniq
    · rw [Bool.not_eq_true] at h
      obtain ⟨e, hekey, hst⟩ := process_candidate_append config autonomy_mode habit_rules
        chat_id local_time now_utc send_ok store sent_today candidate h
      rw [hst]
      rw [unique_keys, List.pairwise_append]
      refine ⟨huniq, List.pairwise_singleton _ _, ?_⟩
      intro a ha b hb
      rw [List.mem_singleton] at hb
      subst hb
      rw [hekey]
      exact has_dedupe_false_forall store candidate.dedupe_key h a ha
  · intro h
    obtain ⟨e, hekey, hst⟩ := process_candidate_append config autonomy_mode habit_rules
      chat_id local_time now_utc send_ok store sent_today candidate h
    have hcount : count_key (store ++ [e]) candidate.dedupe_key = 1 := by
      rw [count_key, List.filter_append, List.length_append]
      have h0 : count_key store candidate.dedupe_key = 0 := has_dedupe_false_count _ _ h
      rw [count_key] at h0
      rw [h0]
      simp [hekey]
    have hdup : has_dedupe (store ++ [e]) candidate.dedupe_key = true := by
      rw [has_dedupe, List.any_append]
      have : (List.any [e] fun x => x.dedupe_key == candidate.dedupe_key) = true := by
        simp [hekey]
      rw [this]
      simp
    constructor
    · rw [hst]; exact hcount
    · intro send_ok₂ sent_today₂
      rw [hst]
      simp [process_candidate, hdup]

/-- C6 witness: starting from an empty table, processing `candidate90` leaves
exactly one row with its dedupe key, and processing it again is a no-op at
the decision-recording level. -/
theorem dedupe_idempotent_witness :
    count_key (process_candidate DEFAULT_CONFIG "normal" [] (some "chat") 720 100 true
      [] 0 candidate90).store candidate90.dedupe_key = 1 ∧
    process_candidate DEFAULT_CONFIG "normal" [] (some "chat") 720 100 true
        (process_candidate DEFAULT_CONFIG "normal" [] (some "chat") 720 100 true
          [] 0 candidate90).store 0 candidate90
      = ⟨(process_candidate DEFAULT_CONFIG "normal" [] (some "chat") 720 100 true
          [] 0 candidate90).store, 0, false⟩ := by
  have h := (dedupe_idempotent DEFAULT_CONFIG "normal" [] (some "chat") 720 100 true
    [] 0 candidate90).2.2 rfl
  exact ⟨h.1, h.2 true 0⟩

/-! ## Conversation state machine (`packages/agent_core/core.py`) -/

/-- The `pending_action_json` payloads written by `core.py` (lines 238-248,
346-358, 1310, 1315), as a closed variant. -/
inductive PendingAction where
  | calendarCreate (title : String) (start_dt : Int) (end_dt : Int) (location : Option String)
  | messageSend (input : List (String × String))
deriving DecidableEq, Repr

/-- The `pending_question_json` payloads written by `core.py` (lines 164-170,
179-185, 208-220, 329-335, 574, 621), as a closed variant.  Instants are the
parsed values of the stored ISO strings (written by `isoformat`, whose
re-parse cannot fail). -/
inductive PendingQuestion where
  | startTime (title : String) (duration_minutes : Option Int) (location : Option String)
      (chat_id : String)
  | durationMinutes (title : String) (start_dt : Int) (location : Option String)
      (chat_id : String)
  | conflictChoice (title : String) (duration_minutes : Int) (options : List (Int × Int))
      (chat_id : String)
  | focusHours
  | autonomyHours (scope : String)
deriving DecidableEq, Repr

/-- A `ConversationState` row (`packages/db/models.py` lines 43-52). -/
structure ConvState where
  chat_id : String
  pending_action : Option PendingAction
  pending_question : Option PendingQuestion
  last_intent : Option String
deriving DecidableEq, Repr

/-- `CANCEL_COMMANDS`, `core.py` line 50. -/
def CANCEL_COMMANDS : List String := ["cancelar", "cancela", "olvidalo"]

/-- `CONFIRM_COMMANDS`, `core.py` line 51. -/
def CONFIRM_COMMANDS : List String := ["confirmo", "si", "s", "ok"]

/-- The routing head of `handle_incoming_message`, `core.py` lines 67-88:
empty text is acknowledged without touching state; a folded cancel keyword
clears both pending slots, sets `last_intent = cancel` and returns
immediately; everything else falls through to the remaining routing steps
(confirm, assistant-request answer, focus/contact/habit commands, pending
question, ...), embedded as the continuation `later_routing`.  `normalized`
is `None` for falsy text; `folded` is the accent-folded lowering. -/
def handle_incoming_message (state : ConvState) (normalized folded : Option String)
    (later_routing : ConvState → String → Option String → ConvState × String) :
    ConvState × String :=
  match normalized with
  | none => (state, "Recibi tu mensaje")
  | some text =>
    match folded with
    | some f =>
      if f ≠ "" ∧ f ∈ CANCEL_COMMANDS then
        ({ state with
            pending_action := none
            pending_question := none
            last_intent := some "cancel" }, "Listo, cancelado.")
      else later_routing state text folded
    | none => later_routing state text folded

/-- C5: for every prior conversation state and every remaining-routing
behaviour, a non-empty message whose folded text is a cancel keyword clears
both pending slots, sets `last_intent = cancel`, replies the fixed cancel
text, and returns before any other routing step can run (the result does not
depend on `later_routing`); both pending slots are null afterward. -/
theorem cancel_clears_pending (state : ConvState) (text f : String)
    (later_routing : ConvState → String → Option String → ConvState × String)
    (hf : f ∈ CANCEL_COMMANDS) :
    handle_incoming_message state (some text) (some f) later_routing
      = ({ state with
          pending_action := none
          pending_question := none
          last_intent := some "cancel" }, "Listo, cancelado.") ∧
    (handle_incoming_message state (some text) (some f) later_routing).1.pending_action
      = none ∧
    (handle_incoming_message state (some text) (some f) later_routing).1.pending_question
      = none := by
  have hne : f ≠ "" := by
    rintro rfl
    simp [CANCEL_COMMANDS] at hf
  have hmain : handle_incoming_message state (some text) (some f) later_routing
      = ({ state with
          pending_action := none
          pending_question := none
          last_intent := some "cancel" }, "Listo, cancelado.") := by
    simp only [handle_incoming_message]
    rw [if_pos ⟨hne, hf⟩]
  exact ⟨hmain, by rw [hmain], by rw [hmain]⟩

/-- A state with both a pending action and a pending question. -/
def stateBothPending : ConvState :=
  { chat_id := "c1"
    pending_action := some (.messageSend [("chat_id", "x"), ("text", "hola")])
    pending_question := some .focusHours
    last_intent := some "llm_plan" }

/-- C5 witness: sending `cancelar` with both slots occupied clears both,
regardless of what the rest of the routing would have done. -/
theorem cancel_clears_pending_witness :
    handle_incoming_message stateBothPending (some "Cancelar") (some "cancelar")
        (fun s _ _ => (s, "fallback"))
      = ({ stateBothPending with
          pending_action := none
          pending_question := none
          last_intent := some "cancel" }, "Listo, cancelado.") :=
  (cancel_clears_pending stateBothPending "Cancelar" "cancelar"
    (fun s _ _ => (s, "fallback")) (by decide)).1

/-! ## Schedule requests and conflict alternatives
    (`core.py` lines 155-253, 835-844) -/

/-- The loop body of `_find_alternatives`, `core.py` lines 835-844: probe the
offsets in order, append free candidates, stop as soon as two are kept. -/
def find_alternatives_go (is_free : Int → Int → Bool) (start_dt duration : Int) :
    List Int → List Int → List Int
  | [], acc => acc
  | offset :: rest, acc =>
    let candidate := start_dt + offset
    let acc' := if is_free candidate (candidate + duration) then acc ++ [candidate] else acc
    if 2 ≤ acc'.length then acc'
    else find_alternatives_go is_free start_dt duration rest acc'

/-- `_find_alternatives`, `core.py` lines 835-844: candidate start times at
+30/+60/+90/+120 minutes from the requested start.  `is_free` embeds
`CalendarTool.is_free` on the authorized path. -/
def find_alternatives (is_free : Int → Int → Bool) (start_dt duration : Int) : List Int :=
  find_alternatives_go is_free start_dt duration [30, 60, 90, 120] []

/-- The parsed schedule request of `_parse_schedule_request` /
`_handle_schedule_request`. -/
structure ScheduleRequest where
  title : String
  start_dt : Option Int
  duration_minutes : Option Int
  location : Option String
deriving DecidableEq, Repr

/-- The numbered conflict reply of `_handle_schedule_request` lines 224-228. -/
def conflict_reply (fmt : Int → String) (alternatives : List Int) : String :=
  let lines := alternatives.enum.map fun p =>
    let idx := p.1 + 1
    let alt_text := fmt p.2
    s!"{idx}) {alt_text}"
  String.intercalate " " (["Hay conflicto. Opciones:"] ++ lines ++ ["Responde 1 o 2."])

/-- `_handle_schedule_request`, `core.py` lines 155-253, on the path where
the calendar is authorized.  `fmt` embeds `_format_datetime` and `plan_text`
embeds `_build_plan_text` (presentation-layer formatting leaves). -/
def handle_schedule_request (is_free : Int → Int → Bool) (fmt : Int → String)
    (plan_text : String → Int → Int → Option String → String)
    (state : ConvState) (req : ScheduleRequest) (chat_id : String) : ConvState × String :=
  match req.start_dt with
  | none =>
    ({ state with
        pending_question := some (.startTime req.title req.duration_minutes req.location
          chat_id),
        last_intent := some "calendar_schedule" },
     match req.location with
     | some loc => "Para que dia y hora? (ej: manana 16)" ++ " Voy a usar " ++ loc ++ "."
     | none => "Para que dia y hora? (ej: manana 16)")
  | some start_dt =>
    match req.duration_minutes with
    | none =>
      ({ state with
          pending_question := some (.durationMinutes req.title start_dt req.location chat_id),
          last_intent := some "calendar_schedule" },
       match req.location with
       | some loc => "Cuanto dura? 30/60/90" ++ " Voy a usar " ++ loc ++ "."
       | none => "Cuanto dura? 30/60/90")
    | some duration =>
      let end_dt := start_dt + duration
      if is_free start_dt end_dt then
        ({ state with
            pending_action := some (.calendarCreate req.title start_dt end_dt req.location),
            pending_question := none,
            last_intent := some "calendar_schedule" },
         plan_text req.title start_dt end_dt req.location)
      else
        let alternatives := find_alternatives is_free start_dt duration
        if alternatives.isEmpty then
          (state, "No hay disponibilidad en ese horario. Proba otro.")
        else
          ({ state with
              pending_question := some (.conflictChoice req.title duration
                (alternatives.map fun alt => (alt, alt + duration)) chat_id),
              last_intent := some "calendar_schedule" },
           conflict_reply fmt alternatives)

/-- C7: when the desired slot of a fully specified request is busy, the
probed candidates are exactly the first at most two free starts among
+30/+60/+90/+120 minutes from the requested start, in that order; when some
probe is free they are stored 1-based in a `conflict_choice` pending question
(and no pending action is created); when none is free the reply is the fixed
no-availability text and, entering with both slots empty, both stay empty. -/
theorem schedule_conflict_alternatives (is_free : Int → Int → Bool) (fmt : Int → String)
    (plan_text : String → Int → Int → Option String → String) (state : ConvState)
    (title : String) (start_dt duration : Int) (location : Option String) (chat_id : String)
    (hpa : state.pending_action = none) (hpq : state.pending_question = none)
    (hbusy : is_free start_dt (start_dt + duration) = false) :
    find_alternatives is_free start_dt duration
      = (([30, 60, 90, 120].map fun offset => start_dt + offset).filter
          fun cand => is_free cand (cand + duration)).take 2 ∧
    (find_alternatives is_free start_dt duration = [] →
      handle_schedule_request is_free fmt plan_text state
          ⟨title, some start_dt, some duration, location⟩ chat_id
        = (state, "No hay disponibilidad en ese horario. Proba otro.") ∧
      (handle_schedule_request is_free fmt plan_text state
          ⟨title, some start_dt, some duration, location⟩ chat_id).1.pending_question = none ∧
      (handle_schedule_request is_free fmt plan_text state
          ⟨title, some start_dt, some duration, location⟩ chat_id).1.pending_action = none) ∧
    (∀ alternatives, find_alternatives is_free start_dt duration = alternatives →
      alternatives ≠ [] →
      (handle_schedule_request is_free fmt plan_text state
          ⟨title, some start_dt, some duration, location⟩ chat_id).1.pending_question
        = some (.conflictChoice title duration
            (alternatives.map fun alt => (alt, alt + duration)) chat_id) ∧
      (handle_schedule_request is_free fmt plan_text state
          ⟨title, some start_dt, some duration, location⟩ chat_id).1.pending_action
        = state.pending_action ∧
      (handle_schedule_request is_free fmt plan_text state
          ⟨title, some start_dt, some duration, location⟩ chat_id).2
        = conflict_reply fmt alternatives) := by
  refine ⟨?_, ?_, ?_⟩
  · cases h30 : is_free (start_dt + 30) (start_dt + 30 + duration) <;>
    cases h60 : is_free (start_dt + 60) (start_dt + 60 + duration) <;>
    cases h90 : is_free (start_dt + 90) (start_dt + 90 + duration) <;>
    cases h120 : is_free (start_dt + 120) (start_dt + 120 + duration) <;>
      simp [find_alternatives, find_alternatives_go, h30, h60, h90, h120]
  · intro hempty
    have hh : handle_schedule_request is_free fmt plan_text state
        ⟨title, some start_dt, some duration, location⟩ chat_id
        = (state, "No hay disponibilidad en ese horario. Proba otro.") := by
      simp [handle_schedule_request, hbusy, hempty]
    exact ⟨hh, by rw [hh]; exact hpq, by rw [hh]; exact hpa⟩
  · intro alternatives halts hne
    have hempty : alternatives.isEmpty = false := by
      cases alternatives with
      | nil => exact absurd rfl hne
      | cons a rest => rfl
    have hh : handle_schedule_request is_free fmt plan_text state
        ⟨title, some start_dt, some duration, location⟩ chat_id
        = ({ state with
            pending_question := some (.conflictChoice title duration
              (alternatives.map fun alt => (alt, alt + duration)) chat_id),
            last_intent := some "calendar_schedule" },
           conflict_reply fmt alternatives) := by
      simp [handle_schedule_request, hbusy, halts, hempty]
    exact ⟨by rw [hh], by rw [hh], by rw [hh]⟩

/-- A state with no pending slots. -/
def emptyState : ConvState :=
  { chat_id := "c1", pending_action := none, pending_question := none, last_intent := none }

/-- A calendar with exactly one free slot, at start time 160. -/
def freeAt160 : Int → Int → Bool := fun s _ => s == 160

/-- C7 witness: requesting 100 for 30 minutes against `freeAt160` probes
130/160/190/220, keeps only 160, and stores the single option (160, 190) in a
`conflict_choice` question. -/
theorem schedule_conflict_alternatives_witness :
    find_alternatives freeAt160 100 30 = [160] ∧
    (handle_schedule_request freeAt160 (fun _ => "dt") (fun _ _ _ _ => "plan")
        emptyState ⟨"corte", some 100, some 30, none⟩ "c1").1.pending_question
      = some (.conflictChoice "corte" 30 [(160, 190)] "c1") := by
  have h := schedule_conflict_alternatives freeAt160 (fun _ => "dt") (fun _ _ _ _ => "plan")
    emptyState "corte" 100 30 none "c1" rfl rfl (by decide)
  have hfa : find_alternatives freeAt160 100 30 = [160] := h.1.trans (by decide)
  refine ⟨hfa, ?_⟩
  have h3 := h.2.2 [160] hfa (by decide)
  simpa using h3.1

/-! ## Pending-question resolver (`core.py` lines 281-388) -/

/-- Python truthiness of an optional integer (`if duration:`): `None` and `0`
are falsy. -/
def opt_truthy (o : Option Int) : Option Int :=
  match o with
  | some v => if v = 0 then none else some v
  | none => none

/-- The result of `_handle_pending_question`: the updated conversation state,
the autonomy rule created (scope, mode, hours) when a focus/autonomy answer
resolves (`_create_autonomy_rule`, `core.py` lines 661-666), and the reply. -/
structure PQResult where
  state : ConvState
  new_rule : Option (String × String × Int)
  reply : String
deriving DecidableEq, Repr

/-- `_handle_pending_question`, `core.py` lines 281-388.  The regex parsers
`_parse_int` (positive ints), `_parse_datetime` and `_parse_choice` (0-based
result of matching `1` or `2`) are text-processing oracles; `is_free`, `fmt`
and `plan_text` are as in `handle_schedule_request`.  The slot-none case is
unreachable (the caller guards on a present question, line 111). -/
def handle_pending_question (parse_int : String → Option Int)
    (parse_datetime : String → Option Int) (parse_choice : String → Option Nat)
    (is_free : Int → Int → Bool) (fmt : Int → String)
    (plan_text : String → Int → Int → Option String → String)
    (state : ConvState) (normalized : String) : PQResult :=
  match state.pending_question with
  | none => ⟨state, none, ""⟩
  | some q =>
    match q with
    | .durationMinutes title start_dt location chat_id =>
      match parse_int normalized with
      | none => ⟨state, none, "Indica la duracion en minutos (30/60/90)."⟩
      | some duration =>
        let state' := { state with pending_question := none }
        let r := handle_schedule_request is_free fmt plan_text state'
          ⟨strOr title "Sin titulo", some start_dt, some duration, location⟩ chat_id
        ⟨r.1, none, r.2⟩
    | .startTime title duration_minutes location chat_id =>
      match parse_datetime normalized with
      | none => ⟨state, none, "Para que dia y hora? (ej: manana 16)"⟩
      | some start_dt =>
        match opt_truthy duration_minutes with
        | some duration =>
          let state' := { state with pending_question := none }
          let r := handle_schedule_request is_free fmt plan_text state'
            ⟨strOr title "Sin titulo", some start_dt, some duration, location⟩ chat_id
          ⟨r.1, none, r.2⟩
        | none =>
          ⟨{ state with
              pending_question := some (.durationMinutes (strOr title "Sin titulo")
                start_dt location chat_id)
              last_intent := some "calendar_schedule" },
           none, "Cuanto dura? 30/60/90"⟩
    | .conflictChoice title duration options chat_id =>
      match parse_choice normalized with
      | none => ⟨state, none, "Responde 1 o 2."⟩
      | some choice =>
        match options.get? choice with
        | none => ⟨state, none, "Responde 1 o 2."⟩
        | some option =>
          ⟨{ state with
              pending_question := none
              pending_action := some (.calendarCreate (strOr title "Sin titulo")
                option.1 option.2 none)
              last_intent := some "calendar_schedule" },
           none, plan_text (strOr title "Sin titulo") option.1 option.2 none⟩
    | .focusHours =>
      match parse_int normalized with
      | none => ⟨state, none, "Por cuantas horas?"⟩
      | some hours =>
        ⟨{ state with
            pending_action := none
            pending_question := none
            last_intent := some "focus_mode" },
         some ("global", "focus", hours),
         "Modo foco activado por " ++ toString hours ++ " horas."⟩
    | .autonomyHours scope =>
      match parse_int normalized with
      | none => ⟨state, none, "Por cuantas horas?"⟩
      | some hours =>
        let scope' := strOr scope "calendar_create"
        ⟨{ state with
            pending_action := none
            pending_question := none
            last_intent := some "autonomy_on" },
         some (scope', "on", hours),
         "Autonomia activada para " ++ scope' ++ " por " ++ toString hours ++ " horas."⟩

/-- The re-ask reply each question type produces on unparsable input. -/
def reask_message : PendingQuestion → String
  | .startTime _ _ _ _ => "Para que dia y hora? (ej: manana 16)"
  | .durationMinutes _ _ _ _ => "Indica la duracion en minutos (30/60/90)."
  | .conflictChoice _ _ _ _ => "Responde 1 o 2."
  | .focusHours => "Por cuantas horas?"
  | .autonomyHours _ => "Por cuantas horas?"

/-- The message text fails to parse as what the pending question expects: a
date/time for `start_time`, a positive number for `duration_minutes`,
`focus_hours` and `autonomy_hours`, an in-range 1-based choice for
`conflict_choice`. -/
def unparsable_for (parse_int : String → Option Int) (parse_datetime : String → Option Int)
    (parse_choice : String → Option Nat) (normalized : String) : PendingQuestion → Prop
  | .startTime _ _ _ _ => parse_datetime normalized = none
  | .durationMinutes _ _ _ _ => parse_int normalized = none
  | .conflictChoice _ _ options _ =>
    parse_choice normalized = none ∨
      ∃ choice, parse_choice normalized = some choice ∧ options.length ≤ choice
  | .focusHours => parse_int normalized = none
  | .autonomyHours _ => parse_int normalized = none

/-- C8: for every pending question of the five known types, a message that
does not parse as what the question expects leaves the state completely
unchanged (same pending question, no pending action created, no autonomy rule
created) and replies by re-asking the same question; consequently arbitrarily
many successive unparsable answers leave the state fixed. -/
theorem pending_question_reask (parse_int : String → Option Int)
    (parse_datetime : String → Option Int) (parse_choice : String → Option Nat)
    (is_free : Int → Int → Bool) (fmt : Int → String)
    (plan_text : String → Int → Int → Option String → String)
    (state : ConvState) (normalized : String) (q : PendingQuestion)
    (hq : state.pending_question = some q)
    (hun : unparsable_for parse_int parse_datetime parse_choice normalized q) :
    handle_pending_question parse_int parse_datetime parse_choice is_free fmt plan_text
        state normalized = ⟨state, none, reask_message q⟩ ∧
    ∀ n : Nat,
      Nat.iterate
        (fun s => (handle_pending_question parse_int parse_datetime parse_choice
          is_free fmt plan_text s normalized).state) n state = state := by
  have hmain : handle_pending_question parse_int parse_datetime parse_choice is_free fmt
      plan_text state normalized = ⟨state, none, reask_message q⟩ := by
    cases q with
    | startTime title duration_minutes location chat_id =>
      replace hun : parse_datetime normalized = none := hun
      simp only [handle_pending_question, hq, hun, reask_message]
    | durationMinutes title start_dt location chat_id =>
      replace hun : parse_int normalized = none := hun
      simp only [handle_pending_question, hq, hun, reask_message]
    | conflictChoice title duration options chat_id =>
      replace hun : parse_choice normalized = none ∨
          ∃ choice, parse_choice normalized = some choice ∧ options.length ≤ choice := hun
      rcases hun with h | ⟨choice, hch, hlen⟩
      · simp only [handle_pending_question, hq, h, reask_message]
      · have hnone : options.get? choice = none := List.get?_eq_none.mpr hlen
        simp only [handle_pending_question, hq, hch, hnone, reask_message]
    | focusHours =>
      replace hun : parse_int normalized = none := hun
      simp only [handle_pending_question, hq, hun, reask_message]
    | autonomyHours scope =>
      replace hun : parse_int normalized = none := hun
      simp only [handle_pending_question, hq, hun, reask_message]
  refine ⟨hmain, ?_⟩
  have hstep : (handle_pending_question parse_int parse_datetime parse_choice is_free fmt
      plan_text state normalized).state = state := by rw [hmain]
  intro n
  induction n with
  | zero => rfl
  | succ k ih => rw [Function.iterate_succ_apply', ih, hstep]

/-- A state waiting on the focus-hours question. -/
def stateFocusQ : ConvState :=
  { chat_id := "c1", pending_action := none, pending_question := some .focusHours,
    last_intent := none }

/-- C8 witness: with parsers finding nothing in the text, answering the
focus-hours question re-asks it and leaves the state unchanged. -/
theorem pending_question_reask_witness :
    handle_pending_question (fun _ => none) (fun _ => none) (fun _ => none)
        (fun _ _ => true) (fun _ => "") (fun _ _ _ _ => "") stateFocusQ "mmm"
      = ⟨stateFocusQ, none, "Por cuantas horas?"⟩ :=
  (pending_question_reask (fun _ => none) (fun _ => none) (fun _ => none)
    (fun _ _ => true) (fun _ => "") (fun _ _ _ _ => "") stateFocusQ "mmm"
    .focusHours rfl rfl).1

end Asistente
